import Mathlib

/-!
Verification of the Airlock identity core: a shallow embedding of the JWT
issuance/validation utilities, the authentication gate, the role-decision
functions, and the API-key service, with theorems checking the stated
properties of each operation.

Embedded modules:
* `src/shared/python/airlock_common/utils/jwt.py` (PyJWT-backed codec)
* `src/services/auth-service/src/utils/jwt.py` (python-jose-backed codec)
* `src/services/auth-service/src/dependencies/auth.py` (gate + role checks)
* `src/services/api-key-service/src/services/api_key_service.py`

Times are unix seconds as `Int`.  A signed JWT is modelled as the structured
claim set together with the signing key and algorithm; signature verification
succeeds exactly when the verifier's key and accepted algorithm match the
ones the token was produced with.  Python truthiness on optional strings and
lists is modelled by the `truthyStr`/`truthyList` helpers.
-/

namespace Airlock

/-- Python truthiness for an optional string: `None` and `""` are falsy. -/
def truthyStr : Option String → Option String
  | none => none
  | some s => if s = "" then none else some s

/-- Python truthiness for an optional list: `None` and `[]` are falsy. -/
def truthyList : Option (List String) → Option (List String)
  | none => none
  | some l => if l = [] then none else some l

/-- The fixed JWT claim schema (§3 TokenClaims). Absent claims are `none`,
mirroring a JSON payload in which the key is missing. -/
structure Claims where
  sub : Option String := none
  exp : Option Int := none
  iat : Option Int := none
  iss : Option String := none
  type : Option String := none
  username : Option String := none
  roles : Option (List String) := none
  scope : Option String := none
  scopes : Option (List String) := none
  permissions : Option (List String) := none
  api_key_id : Option Int := none
  auth_type : Option String := none
  jti : Option String := none
deriving DecidableEq, Repr

/-- A wire token: either a string that does not parse as a JWT, or a
well-formed token carrying its payload, signing key and algorithm. -/
inductive TokenStr where
  | malformed (raw : String)
  | signed (payload : Claims) (key : String) (alg : String)
deriving DecidableEq, Repr

/-- `JWTConfig` from `airlock_common/utils/jwt.py`. -/
structure JWTConfig where
  secret_key : String
  algorithm : String
  issuer : String
  access_token_expiry_minutes : Int
  refresh_token_expiry_days : Int
deriving DecidableEq, Repr

/-- Failure kinds raised by PyJWT's `jwt.decode` as used by the shared
`decode_token`. -/
inductive PyJWTErr where
  | decodeErr
  | badSignature
  | badAlgorithm
  | expiredSignature
  | missingIssClaim
  | invalidIssuer
deriving DecidableEq, Repr

/-- PyJWT issuer validation: with `verify_iss` set, an absent `iss` claim is
a missing-required-claim error and a differing one an invalid-issuer error. -/
def validate_iss (payload : Claims) (config : JWTConfig) (verify_iss : Bool) :
    Except PyJWTErr Claims :=
  if verify_iss then
    match payload.iss with
    | none => .error .missingIssClaim
    | some i => if i = config.issuer then .ok payload else .error .invalidIssuer
  else .ok payload

/-- `decode_token` from `airlock_common/utils/jwt.py`: PyJWT verifies the
signature and accepted algorithm, then `exp` (expired iff `exp ≤ now`: an
exact-expiry token is rejected), then the issuer when `verify_iss`. -/
def decode_token (token : TokenStr) (config : JWTConfig) (verify_iss : Bool)
    (now : Int) : Except PyJWTErr Claims :=
  match token with
  | .malformed _ => .error .decodeErr
  | .signed payload key alg =>
    if key = config.secret_key then
      if alg = config.algorithm then
        match payload.exp with
        | some e =>
          if e ≤ now then .error .expiredSignature
          else validate_iss payload config verify_iss
        | none => validate_iss payload config verify_iss
      else .error .badAlgorithm
    else .error .badSignature

/-- `create_access_token` from `airlock_common/utils/jwt.py`. `exp` is
`iat + access_token_expiry_minutes` in seconds; optional claims are included
only when truthy (`api_key_id` uses an `is not None` test instead, so it is
passed through unchanged); `additional_claims` is never supplied by the
callers under verification and is not modelled. -/
def create_access_token (config : JWTConfig) (subject : String)
    (username : Option String) (roles : Option (List String))
    (scopes : Option (List String)) (permissions : Option (List String))
    (scope : Option String) (api_key_id : Option Int)
    (auth_type : Option String) (now : Int) : TokenStr :=
  let claims : Claims :=
    { sub := some subject
      exp := some (now + 60 * config.access_token_expiry_minutes)
      iat := some now
      iss := some config.issuer
      type := some "access"
      username := truthyStr username
      roles := truthyList roles
      scope := truthyStr scope
      scopes := truthyList scopes
      permissions := truthyList permissions
      api_key_id := api_key_id
      auth_type := truthyStr auth_type
      jti := none }
  .signed claims config.secret_key config.algorithm

/-- The JWT-relevant part of the auth-service `Settings` object. -/
structure Settings where
  JWT_SECRET_KEY : String
  JWT_ALGORITHM : String
  JWT_ISSUER : String
  ACCESS_TOKEN_EXPIRY_MINUTES : Int
  REFRESH_TOKEN_EXPIRY_DAYS : Int
deriving DecidableEq, Repr

/-- Failure kinds raised by python-jose's `jwt.decode` as used by the
auth-service `decode_token`. -/
inductive JoseErr where
  | expiredSignature
  | badSignature
  | malformed
deriving DecidableEq, Repr

/-- The message text python-jose attaches to each failure kind. -/
def joseMsg : JoseErr → String
  | .expiredSignature => "Signature has expired."
  | .badSignature => "Signature verification failed."
  | .malformed => "Error decoding token claims."

/-- `decode_token` from `services/auth-service/src/utils/jwt.py`: jose
verifies the signature and expiry only — the call passes no `issuer` and no
`verify_iss` option, so the issuer claim is never checked.  jose treats a
token as expired iff `exp < now` (an exact-expiry token is accepted). -/
def authsvc_decode_token (token : TokenStr) (settings : Settings) (now : Int) :
    Except JoseErr Claims :=
  match token with
  | .malformed _ => .error .malformed
  | .signed payload key alg =>
    if key = settings.JWT_SECRET_KEY ∧ alg = settings.JWT_ALGORITHM then
      match payload.exp with
      | some e => if e < now then .error .expiredSignature else .ok payload
      | none => .ok payload
    else .error .badSignature

/-- An HTTPException as raised by the gate and the role checkers. -/
structure HTTPErr where
  status_code : Nat
  detail : String
deriving DecidableEq, Repr

/-- `UserContext` from `services/auth-service/src/dependencies/auth.py`. -/
structure UserContext where
  user_id : String
  username : String
  roles : List String
  scope : Option String
deriving DecidableEq, Repr

/-- `get_current_user` from `services/auth-service/src/dependencies/auth.py`:
decode (any jose failure becomes a 401 whose detail embeds the jose message,
re-wrapped once by the auth-service decoder's own handler), enforce
`type == "access"`, require a truthy `sub`, default `username` to the
subject and `roles` to `["submitter"]` when absent or empty. -/
def get_current_user (token : TokenStr) (settings : Settings) (now : Int) :
    Except HTTPErr UserContext :=
  match authsvc_decode_token token settings now with
  | .error e =>
    .error ⟨401, "Invalid or expired token: " ++ ("Invalid token: " ++ joseMsg e)⟩
  | .ok token_data =>
    if token_data.type ≠ some "access" then
      .error ⟨401, "Invalid token type. Access token required."⟩
    else
      match truthyStr token_data.sub with
      | none => .error ⟨401, "Invalid token: missing user ID"⟩
      | some user_id =>
        let username := (truthyStr token_data.username).getD user_id
        let roles0 := token_data.roles.getD []
        let roles := if roles0 = [] then ["submitter"] else roles0
        .ok ⟨user_id, username, roles, token_data.scope⟩

/-- Authorization failures raised by the role checkers.  `forbiddenAll`
keeps the required and missing role collections structurally (the Python
message joins a `set`, whose iteration order is unspecified). -/
inductive RoleErr where
  | forbidden (detail : String)
  | forbiddenAll (required : List String) (missing : List String)
deriving DecidableEq, Repr

/-- The checker produced by `require_role`: admin bypass, then membership. -/
def require_role (required_role : String) (current_user : UserContext) :
    Except RoleErr UserContext :=
  let user_roles := current_user.roles
  if "admin" ∈ user_roles then .ok current_user
  else if required_role ∉ user_roles then
    .error (.forbidden ("Access denied. Required role: " ++ required_role))
  else .ok current_user

/-- The checker produced by `require_any_role`: admin bypass, then a
non-empty intersection of the required and held roles. -/
def require_any_role (required_roles : List String)
    (current_user : UserContext) : Except RoleErr UserContext :=
  let user_roles := current_user.roles
  if "admin" ∈ user_roles then .ok current_user
  else if required_roles.filter (fun r => r ∈ user_roles) = [] then
    .error (.forbidden ("Access denied. Required one of roles: " ++
      String.intercalate ", " required_roles))
  else .ok current_user

/-- The checker produced by `require_all_roles`: admin bypass, then a subset
test; on failure the error carries `required − held` (as a duplicate-free
list standing for the Python set difference). -/
def require_all_roles (required_roles : List String)
    (current_user : UserContext) : Except RoleErr UserContext :=
  let user_roles := current_user.roles
  if "admin" ∈ user_roles then .ok current_user
  else if required_roles.all (fun r => r ∈ user_roles) then .ok current_user
  else
    .error (.forbiddenAll required_roles
      ((required_roles.filter (fun r => r ∉ user_roles)).dedup))

/-- A persisted `APIKey` row; `scopes`/`permissions` are held as the lists
their JSON text encodes (`json.dumps`/`json.loads` round-trip). -/
structure APIKeyRecord where
  id : Nat
  key_hash : String
  scopes : List String
  permissions : List String
  expires_at : Option Int
deriving DecidableEq, Repr

/-- The backing store of `APIKeyService`: live rows plus the next primary
key the database would assign. -/
structure Store where
  records : List APIKeyRecord
  next_id : Nat
deriving DecidableEq, Repr

/-- `APIKeyService.create_api_key`.  Randomness (the plaintext secret and
its bcrypt hash) is supplied by the caller.  `if expires_in_days:` is a
truthiness test, so `None` and `0` both mean no expiry; a day is 86400
seconds. -/
def create_api_key (st : Store) (scopes permissions : List String)
    (expires_in_days : Option Int) (now : Int) (key_hash plain_key : String) :
    Store × APIKeyRecord × String :=
  let expires_at : Option Int :=
    match expires_in_days with
    | none => none
    | some d => if d = 0 then none else some (now + d * 86400)
  let record : APIKeyRecord :=
    ⟨st.next_id, key_hash, scopes, permissions, expires_at⟩
  (⟨st.records ++ [record], st.next_id + 1⟩, record, plain_key)

/-- `APIKeyService.get_api_key_by_id`. -/
def get_api_key_by_id (st : Store) (key_id : Nat) : Option APIKeyRecord :=
  st.records.find? (fun r => r.id = key_id)

/-- `APIKeyService.revoke_api_key`: delete the row when present. -/
def revoke_api_key (st : Store) (key_id : Nat) : Store × Bool :=
  match get_api_key_by_id st key_id with
  | none => (st, false)
  | some _ => (⟨st.records.filter (fun r => r.id ≠ key_id), st.next_id⟩, true)

/-- `APIKeyService.rotate_api_key`: look up the old row (returning
`(none, none)` untouched when absent), carry over scopes/permissions when not
resupplied, recompute the expiry from the old row when none is supplied
(`timedelta.days` is floor division by 86400; the result is kept only when
strictly positive), then revoke the old row and create the new one. -/
def rotate_api_key (st : Store) (key_id : Nat)
    (scopes? permissions? : Option (List String)) (expires_in_days? : Option Int)
    (now : Int) (key_hash plain_key : String) :
    Store × Option APIKeyRecord × Option String :=
  match get_api_key_by_id st key_id with
  | none => (st, none, none)
  | some old_key =>
    let scopes := scopes?.getD old_key.scopes
    let permissions := permissions?.getD old_key.permissions
    let expires_in_days : Option Int :=
      match expires_in_days?, old_key.expires_at with
      | none, some old_exp =>
        let days_until_expiry := Int.fdiv (old_exp - now) 86400
        if 0 < days_until_expiry then some (max 1 days_until_expiry) else none
      | e, _ => e
    let st1 := (revoke_api_key st key_id).1
    let res := create_api_key st1 scopes permissions expires_in_days now key_hash plain_key
    (res.1, some res.2.1, some res.2.2)

/-- `APIKeyService.is_key_expired`: a row without `expires_at` never
expires; otherwise expired iff `now > expires_at` (strict). -/
def is_key_expired (api_key : APIKeyRecord) (now : Int) : Bool :=
  match api_key.expires_at with
  | none => false
  | some e => e < now

/-! Concrete fixtures used by witnesses and counterexamples. -/

/-- A concrete shared-codec configuration. -/
def cfg0 : JWTConfig := ⟨"dev-secret-key", "HS256", "airlock", 15, 7⟩

/-- A concrete auth-service settings object. -/
def settings0 : Settings := ⟨"dev-secret-key", "HS256", "airlock-auth-service", 15, 7⟩

/-- An access-token payload carrying a foreign issuer. -/
def evilIssClaims : Claims :=
  { sub := some "u1", exp := some 900, iat := some 0, iss := some "evil-issuer",
    type := some "access", roles := some ["submitter"] }

/-- A valid api-key-minted access-token payload (as produced by
`create_api_key_access_token`): scopes/permissions, no roles. -/
def apiKeyClaims : Claims :=
  { sub := some "api-key-1", exp := some 900, iat := some 0,
    iss := some "airlock-auth-service", type := some "access",
    scopes := some ["read-only"], permissions := some ["download"],
    api_key_id := some 1, auth_type := some "api_key" }

/-- A user access-token payload that expires at time 10. -/
def shortLivedClaims : Claims :=
  { sub := some "u1", exp := some 10, iat := some 0,
    iss := some "airlock-auth-service", type := some "access",
    roles := some ["submitter"] }

/-- A valid user access-token payload with no roles claim. -/
def rolelessClaims : Claims :=
  { sub := some "u2", exp := some 900, iat := some 0,
    iss := some "airlock-auth-service", type := some "access" }

/-- A valid user access-token payload with a non-empty roles claim. -/
def reviewerClaims : Claims :=
  { sub := some "u3", exp := some 900, iat := some 0,
    iss := some "airlock-auth-service", type := some "access",
    username := some "rev", roles := some ["reviewer"] }

/-- A principal holding only the admin role. -/
def adminUser : UserContext := ⟨"u9", "root-user", ["admin"], none⟩

/-- A principal holding only role "a". -/
def userHoldingA : UserContext := ⟨"u8", "only-a", ["a"], none⟩

/-! Helper lemmas. -/

/-- Truthiness keeps a non-empty list unchanged. -/
theorem truthyList_of_ne_nil (l : List String) (h : l ≠ []) :
    truthyList (some l) = some l := by
  simp [truthyList, h]

/-- Evaluation of the gate on a well-signed, unexpired access token with a
truthy subject: the decoded claims flow straight into a `UserContext`. -/
theorem gate_valid_eval (cl : Claims) (settings : Settings) (now : Int)
    (uid : String)
    (hexp : ∀ e, cl.exp = some e → ¬ e < now)
    (htype : cl.type = some "access")
    (hsub : truthyStr cl.sub = some uid) :
    get_current_user (.signed cl settings.JWT_SECRET_KEY settings.JWT_ALGORITHM)
      settings now =
    .ok ⟨uid, (truthyStr cl.username).getD uid,
         (if cl.roles.getD [] = [] then ["submitter"] else cl.roles.getD []),
         cl.scope⟩ := by
  have hdec : authsvc_decode_token
      (.signed cl settings.JWT_SECRET_KEY settings.JWT_ALGORITHM) settings now =
      .ok cl := by
    cases hce : cl.exp with
    | none => simp [authsvc_decode_token, hce]
    | some e => simp [authsvc_decode_token, hce, hexp e hce]
  simp [get_current_user, hdec, htype, hsub]

/-- A successful run of `validate_iss` in verifying mode returns a payload
whose issuer is the configured one. -/
theorem validate_iss_ok (payload : Claims) (config : JWTConfig) (c : Claims)
    (h : validate_iss payload config true = .ok c) :
    c.iss = some config.issuer := by
  cases hi : payload.iss with
  | none => simp [validate_iss, hi] at h
  | some i =>
    simp only [validate_iss, hi] at h
    split at h
    next =>
      split at h
      next hcond =>
        injection h with h'
        rw [← h', hi, hcond]
      next => exact Except.noConfusion h
    next hfalse => exact absurd trivial hfalse

/-- C1 counterexample: issuing an access token with `roles = []` drops the
`roles` claim entirely (`if roles:` is falsy on the empty list), so the
decoded claim set has no `roles` field rather than an empty list — the
round-trip stated for the empty list fails. -/
theorem C1_roundtrip_cex :
    (decode_token (create_access_token cfg0 "u1" none (some []) none none none
        none none 0) cfg0 true 0).toOption.map Claims.roles = some none ∧
    some (none : Option (List String)) ≠ some (some ([] : List String)) :=
  ⟨rfl, by decide⟩

/-- C1 (amended): for every config, non-empty subject and NON-EMPTY roles
list, decoding the issued access token before its expiry returns claims with
`sub = subject`, `roles = roles`, `type = "access"` and `iss = config.issuer`;
when roles is the empty list the `roles` claim is omitted from the token and
is absent from the decoded claim set. -/
theorem C1_roundtrip_amended (config : JWTConfig) (subject : String)
    (username : Option String) (scope : Option String) (roles : List String)
    (now_issue now_decode : Int)
    (hsub : subject ≠ "") (hroles : roles ≠ [])
    (hfresh : now_decode < now_issue + 60 * config.access_token_expiry_minutes) :
    ∃ c, decode_token (create_access_token config subject username (some roles)
        none none scope none none now_issue) config true now_decode = .ok c ∧
      c.sub = some subject ∧ c.roles = some roles ∧
      c.type = some "access" ∧ c.iss = some config.issuer := by
  have hnle : ¬ (now_issue + 60 * config.access_token_expiry_minutes ≤ now_decode) := by
    omega
  have hdec : decode_token (create_access_token config subject username
      (some roles) none none scope none none now_issue) config true now_decode =
      .ok { sub := some subject
            exp := some (now_issue + 60 * config.access_token_expiry_minutes)
            iat := some now_issue
            iss := some config.issuer
            type := some "access"
            username := truthyStr username
            roles := truthyList (some roles)
            scope := truthyStr scope
            scopes := truthyList none
            permissions := truthyList none
            api_key_id := none
            auth_type := truthyStr none
            jti := none } := by
    simp [decode_token, create_access_token, validate_iss, hnle]
  exact ⟨_, hdec, rfl, truthyList_of_ne_nil roles hroles, rfl, rfl⟩

/-- C1 witness: the amended round-trip at a concrete config, subject `"u1"`
and roles `["submitter"]`, decoded at issue time. -/
theorem C1_roundtrip_amended_witness :
    ("u1" : String) ≠ "" ∧ (["submitter"] : List String) ≠ [] ∧
    ((0 : Int) < 0 + 60 * cfg0.access_token_expiry_minutes) ∧
    ∃ c, decode_token (create_access_token cfg0 "u1" none (some ["submitter"])
        none none none none none 0) cfg0 true 0 = .ok c ∧
      c.sub = some "u1" ∧ c.roles = some ["submitter"] ∧
      c.type = some "access" ∧ c.iss = some cfg0.issuer :=
  ⟨by decide, by decide, by decide,
   C1_roundtrip_amended cfg0 "u1" none none ["submitter"] 0 0 (by decide)
     (by decide) (by decide)⟩

/-- C2 counterexample: the auth-service decoder passes neither an `issuer`
nor a `verify_iss` option to jose, so a same-secret token whose `iss` claim
is a foreign issuer decodes successfully — the issuer guarantee does not
hold for this decode entry point. -/
theorem C2_issuer_cex :
    authsvc_decode_token (.signed evilIssClaims settings0.JWT_SECRET_KEY
        settings0.JWT_ALGORITHM) settings0 0 = .ok evilIssClaims ∧
    evilIssClaims.iss ≠ some settings0.JWT_ISSUER :=
  ⟨rfl, by decide⟩

/-- C2 (amended): the SHARED decoder with `verify_iss` (the default) never
returns a successfully decoded claim set whose `iss` differs from the
configured issuer; the auth-service decoder used by the gate performs no
issuer check at all and can return foreign-issuer claims. -/
theorem C2_issuer_amended (token : TokenStr) (config : JWTConfig) (now : Int)
    (c : Claims) (h : decode_token token config true now = .ok c) :
    c.iss = some config.issuer := by
  cases token with
  | malformed s => exact Except.noConfusion h
  | signed payload key alg =>
    simp only [decode_token] at h
    split at h
    · split at h
      · split at h
        · split at h
          · exact Except.noConfusion h
          · exact validate_iss_ok payload config c h
        · exact validate_iss_ok payload config c h
      · exact Except.noConfusion h
    · exact Except.noConfusion h

/-- C2 witness: the shared decoder at a concrete valid token — the decoded
issuer must be the configured one. -/
theorem C2_issuer_amended_witness :
    ∃ c, decode_token (create_access_token cfg0 "u1" none (some ["submitter"])
        none none none none none 0) cfg0 true 0 = .ok c ∧
      c.iss = some cfg0.issuer :=
  ⟨_, rfl,
   C2_issuer_amended (create_access_token cfg0 "u1" none (some ["submitter"])
     none none none none none 0) cfg0 0 _ rfl⟩

/-- C8 counterexample: the gate's 401 detail embeds the jose failure text:
an expired token and a wrongly-signed token produce different messages, so
the failure kinds are distinguishable by an external caller. -/
theorem C8_generic_message_cex :
    get_current_user (.signed shortLivedClaims settings0.JWT_SECRET_KEY
        settings0.JWT_ALGORITHM) settings0 100 =
      .error ⟨401, "Invalid or expired token: Invalid token: Signature has expired."⟩ ∧
    get_current_user (.signed shortLivedClaims "wrong-secret"
        settings0.JWT_ALGORITHM) settings0 100 =
      .error ⟨401, "Invalid or expired token: Invalid token: Signature verification failed."⟩ ∧
    ("Invalid or expired token: Invalid token: Signature has expired." ≠
      "Invalid or expired token: Invalid token: Signature verification failed.") :=
  ⟨rfl, rfl, by decide⟩

/-- C8 (amended): every codec failure (expired, malformed, bad signature)
surfaces as a 401 whose detail is the fixed prefix
`"Invalid or expired token: Invalid token: "` followed by the specific jose
message — the status and prefix are uniform, but the message as a whole
identifies the failure kind. -/
theorem C8_auth_failure_amended (token : TokenStr) (settings : Settings)
    (now : Int) (e : JoseErr)
    (h : authsvc_decode_token token settings now = .error e) :
    get_current_user token settings now =
      .error ⟨401, "Invalid or expired token: " ++ ("Invalid token: " ++ joseMsg e)⟩ := by
  unfold get_current_user
  rw [h]

/-- C8 witness: the amended failure shape at a concrete expired token. -/
theorem C8_auth_failure_amended_witness :
    get_current_user (.signed shortLivedClaims settings0.JWT_SECRET_KEY
        settings0.JWT_ALGORITHM) settings0 100 =
      .error ⟨401, "Invalid or expired token: " ++
        ("Invalid token: " ++ joseMsg JoseErr.expiredSignature)⟩ :=
  C8_auth_failure_amended _ settings0 100 JoseErr.expiredSignature (by rfl)

/-- C9: the expiry check is false on a record without `expires_at`, and on a
record with one it is true exactly when the clock is strictly past it — a
record checked at exactly `expires_at` is not yet expired. -/
theorem C9_expiry_check (api_key : APIKeyRecord) (now : Int) :
    (api_key.expires_at = none → is_key_expired api_key now = false) ∧
    (∀ e, api_key.expires_at = some e →
      (is_key_expired api_key now = true ↔ e < now)) := by
  constructor
  · intro h
    simp [is_key_expired, h]
  · intro e h
    simp [is_key_expired, h]

/-- C9 witness: a record expiring at 100 is not expired at 100, expired at
101, and a record without expiry is never expired. -/
theorem C9_expiry_check_witness :
    is_key_expired ⟨1, "h1", [], [], some 100⟩ 100 = false ∧
    is_key_expired ⟨1, "h1", [], [], some 100⟩ 101 = true ∧
    is_key_expired ⟨1, "h1", [], [], none⟩ 999 = false := by
  refine ⟨?_, ?_, ?_⟩
  · have h := (C9_expiry_check ⟨1, "h1", [], [], some 100⟩ 100).2 100 (by rfl)
    cases hb : is_key_expired (⟨1, "h1", [], [], some 100⟩ : APIKeyRecord) 100 with
    | false => rfl
    | true => exact absurd (h.mp hb) (by decide)
  · exact ((C9_expiry_check ⟨1, "h1", [], [], some 100⟩ 101).2 100 (by rfl)).mpr
      (by decide)
  · exact (C9_expiry_check ⟨1, "h1", [], [], none⟩ 999).1 (by rfl)

/-- C10: rotating a key id with no matching record returns `(none, none)`
and leaves the store exactly as it was — nothing is deleted or created. -/
theorem C10_rotate_not_found (st : Store) (key_id : Nat)
    (scopes? permissions? : Option (List String))
    (expires_in_days? : Option Int) (now : Int) (key_hash plain_key : String)
    (h : ∀ r ∈ st.records, r.id ≠ key_id) :
    rotate_api_key st key_id scopes? permissions? expires_in_days? now
      key_hash plain_key = (st, none, none) := by
  have hf : get_api_key_by_id st key_id = none := by
    simp only [get_api_key_by_id, List.find?_eq_none, decide_eq_true_eq]
    exact h
  simp [rotate_api_key, hf]

/-- C10 witness: rotating a missing id 5 against a one-record store. -/
theorem C10_rotate_not_found_witness :
    rotate_api_key ⟨[⟨1, "h1", ["s"], ["p"], none⟩], 2⟩ 5 none none none 0
      "h2" "pk2" = (⟨[⟨1, "h1", ["s"], ["p"], none⟩], 2⟩, none, none) :=
  C10_rotate_not_found _ 5 none none none 0 "h2" "pk2" (by decide)

/-- C3 counterexample: a valid api-key access token (auth_type `"api_key"`,
scopes and permissions present, no roles claim) is handled by
`get_current_user` exactly like a user token: the result is a roles-based
`UserContext` with the default `["submitter"]`, and the context type has no
scopes/permissions fields at all — no APIKey-kind principal is constructed. -/
theorem C3_apikey_cex :
    get_current_user (.signed apiKeyClaims settings0.JWT_SECRET_KEY
        settings0.JWT_ALGORITHM) settings0 0 =
      .ok ⟨"api-key-1", "api-key-1", ["submitter"], none⟩ ∧
    (["submitter"] : List String) ≠ [] :=
  ⟨rfl, by decide⟩

/-- C3 (amended): `get_current_user` ignores `auth_type` entirely: a validly
signed, unexpired access token carrying `auth_type == "api_key"` yields the
same roles-based `UserContext` as a user token, and since api-key tokens
carry no roles claim the roles default to `["submitter"]`; the token's
scopes and permissions are never transferred to the principal. -/
theorem C3_apikey_amended (cl : Claims) (settings : Settings) (now : Int)
    (uid : String)
    (hexp : ∀ e, cl.exp = some e → ¬ e < now)
    (htype : cl.type = some "access")
    (hsub : truthyStr cl.sub = some uid)
    (hak : cl.auth_type = some "api_key")
    (hroles : cl.roles = none) :
    get_current_user (.signed cl settings.JWT_SECRET_KEY settings.JWT_ALGORITHM)
      settings now =
    .ok ⟨uid, (truthyStr cl.username).getD uid, ["submitter"], cl.scope⟩ := by
  have h := gate_valid_eval cl settings now uid hexp htype hsub
  simpa [hroles] using h

/-- C3 witness: the amended behaviour at the concrete api-key token. -/
theorem C3_apikey_amended_witness :
    get_current_user (.signed apiKeyClaims settings0.JWT_SECRET_KEY
        settings0.JWT_ALGORITHM) settings0 0 =
      .ok ⟨"api-key-1", (truthyStr apiKeyClaims.username).getD "api-key-1",
           ["submitter"], apiKeyClaims.scope⟩ :=
  C3_apikey_amended apiKeyClaims settings0 0 "api-key-1"
    (by intro e he; simp [apiKeyClaims] at he; omega)
    (by rfl) (by rfl) (by rfl) (by rfl)

/-- C4: on a validly signed, unexpired access token with a truthy subject,
an absent or empty roles claim yields `roles = ["submitter"]`, and a
non-empty roles claim is passed through unchanged. -/
theorem C4_default_roles (cl : Claims) (settings : Settings) (now : Int)
    (uid : String)
    (hexp : ∀ e, cl.exp = some e → ¬ e < now)
    (htype : cl.type = some "access")
    (hsub : truthyStr cl.sub = some uid) :
    ((cl.roles = none ∨ cl.roles = some []) →
      ∃ ctx, get_current_user (.signed cl settings.JWT_SECRET_KEY
          settings.JWT_ALGORITHM) settings now = .ok ctx ∧
        ctx.roles = ["submitter"]) ∧
    (∀ l, cl.roles = some l → l ≠ [] →
      ∃ ctx, get_current_user (.signed cl settings.JWT_SECRET_KEY
          settings.JWT_ALGORITHM) settings now = .ok ctx ∧
        ctx.roles = l) := by
  have h := gate_valid_eval cl settings now uid hexp htype hsub
  constructor
  · intro hr
    refine ⟨_, h, ?_⟩
    rcases hr with hr | hr <;> simp [hr]
  · intro l hl hlne
    refine ⟨_, h, ?_⟩
    simp [hl, hlne]

/-- C4 witness: a roleless token defaults to `["submitter"]` and a token
holding `["reviewer"]` keeps it. -/
theorem C4_default_roles_witness :
    (∃ ctx, get_current_user (.signed rolelessClaims settings0.JWT_SECRET_KEY
        settings0.JWT_ALGORITHM) settings0 0 = .ok ctx ∧
      ctx.roles = ["submitter"]) ∧
    (∃ ctx, get_current_user (.signed reviewerClaims settings0.JWT_SECRET_KEY
        settings0.JWT_ALGORITHM) settings0 0 = .ok ctx ∧
      ctx.roles = ["reviewer"]) := by
  constructor
  · exact (C4_default_roles rolelessClaims settings0 0 "u2"
      (by intro e he; simp [rolelessClaims] at he; omega)
      (by rfl) (by rfl)).1 (Or.inl (by rfl))
  · exact (C4_default_roles reviewerClaims settings0 0 "u3"
      (by intro e he; simp [reviewerClaims] at he; omega)
      (by rfl) (by rfl)).2 ["reviewer"] (by rfl) (by decide)

/-- C5: a principal holding `"admin"` passes `require_role`,
`require_any_role` and `require_all_roles` for every requirement, including
roles it does not hold and roles never declared anywhere. -/
theorem C5_admin_bypass (u : UserContext) (required_role : String)
    (any_required all_required : List String)
    (h : "admin" ∈ u.roles) :
    require_role required_role u = .ok u ∧
    require_any_role any_required u = .ok u ∧
    require_all_roles all_required u = .ok u := by
  refine ⟨?_, ?_, ?_⟩ <;>
    simp [require_role, require_any_role, require_all_roles, h]

/-- C5 witness: the admin-only principal against a role it does not hold,
an any-of set it does not intersect, and an all-of set containing a role
never declared anywhere. -/
theorem C5_admin_bypass_witness :
    ("admin" ∈ adminUser.roles) ∧
    (require_role "reviewer" adminUser = .ok adminUser ∧
     require_any_role ["reviewer", "ghost-role"] adminUser = .ok adminUser ∧
     require_all_roles ["reviewer", "never-declared-role"] adminUser =
       .ok adminUser) :=
  ⟨by decide,
   C5_admin_bypass adminUser "reviewer" ["reviewer", "ghost-role"]
     ["reviewer", "never-declared-role"] (by decide)⟩

/-- C6: for a non-admin principal, `require_all_roles` fails exactly when
the required set is not contained in the held roles, and the reported
missing collection contains precisely the required roles the principal does
not hold (the set difference required − held); when the required set is
contained in the held roles the check passes. -/
theorem C6_all_roles_missing (u : UserContext) (required_roles : List String)
    (hadmin : "admin" ∉ u.roles) :
    ((¬ ∀ r ∈ required_roles, r ∈ u.roles) →
      require_all_roles required_roles u =
        .error (.forbiddenAll required_roles
          ((required_roles.filter (fun r => r ∉ u.roles)).dedup)) ∧
      ∀ r, r ∈ (required_roles.filter (fun r => r ∉ u.roles)).dedup ↔
        (r ∈ required_roles ∧ r ∉ u.roles)) ∧
    ((∀ r ∈ required_roles, r ∈ u.roles) →
      require_all_roles required_roles u = .ok u) := by
  constructor
  · intro hmiss
    have hall : ¬ (required_roles.all (fun r => decide (r ∈ u.roles)) = true) := by
      simpa [List.all_eq_true] using hmiss
    constructor
    · simp [require_all_roles, hadmin, hall]
    · intro r
      simp [List.mem_dedup, List.mem_filter]
  · intro hyes
    have hall : required_roles.all (fun r => decide (r ∈ u.roles)) = true := by
      simpa [List.all_eq_true] using hyes
    simp [require_all_roles, hadmin, hall]

/-- C6 witness: holding only `["a"]` against required `["a", "b"]` fails
reporting exactly `["b"]`, and required `["a"]` passes. -/
theorem C6_all_roles_missing_witness :
    ("admin" ∉ userHoldingA.roles) ∧
    require_all_roles ["a", "b"] userHoldingA =
      .error (.forbiddenAll ["a", "b"] ["b"]) ∧
    require_all_roles ["a"] userHoldingA = .ok userHoldingA := by
  have h1 := (C6_all_roles_missing userHoldingA ["a", "b"] (by decide)).1
    (by decide)
  have h2 := (C6_all_roles_missing userHoldingA ["a"] (by decide)).2 (by decide)
  exact ⟨by decide, h1.1, h2⟩

/-- C7 counterexample: rotating (with no new expiry) a key whose expiry is
12 hours away — not yet expired — produces a record with NO expiry: the
source computes `timedelta.days`, gets 0, and its `if days > 0 else None`
branch discards the expiry instead of applying the minimum of 1 day. -/
theorem C7_rotate_expiry_cex :
    is_key_expired ⟨1, "h1", ["s"], ["p"], some 43200⟩ 0 = false ∧
    ((rotate_api_key ⟨[⟨1, "h1", ["s"], ["p"], some 43200⟩], 2⟩ 1 none none
        none 0 "h2" "pk2").2.1).map APIKeyRecord.expires_at = some none :=
  ⟨rfl, rfl⟩

/-- C7 (amended): rotating with no new expiry preserves "no expiry"; when
the old record expires at least one full day in the future, the remaining
whole-day count carries forward (new expiry `now + days·86400` with
`days = ⌊(old_exp − now)/86400⌋ ≥ 1`); but when less than one full day
remains (including the sub-day window before expiry), the new record is
created with NO expiry — the stated minimum of 1 day never applies. -/
theorem C7_rotate_expiry_amended (st : Store) (key_id : Nat) (now : Int)
    (key_hash plain_key : String) (old_key : APIKeyRecord)
    (hfind : get_api_key_by_id st key_id = some old_key) :
    (old_key.expires_at = none →
      ((rotate_api_key st key_id none none none now key_hash plain_key).2.1).map
        APIKeyRecord.expires_at = some none) ∧
    (∀ old_exp, old_key.expires_at = some old_exp → 86400 ≤ old_exp - now →
      ((rotate_api_key st key_id none none none now key_hash plain_key).2.1).map
        APIKeyRecord.expires_at =
        some (some (now + (Int.fdiv (old_exp - now) 86400) * 86400))) ∧
    (∀ old_exp, old_key.expires_at = some old_exp → old_exp - now < 86400 →
      ((rotate_api_key st key_id none none none now key_hash plain_key).2.1).map
        APIKeyRecord.expires_at = some none) := by
  refine ⟨?_, ?_, ?_⟩
  · intro hno
    simp [rotate_api_key, hfind, hno, create_api_key]
  · intro old_exp hsome hbig
    have hconv := @Int.fdiv_eq_ediv (old_exp - now) 86400 (by omega)
    have hpos : 0 < Int.fdiv (old_exp - now) 86400 := by rw [hconv]; omega
    have hmax : max 1 (Int.fdiv (old_exp - now) 86400) =
        Int.fdiv (old_exp - now) 86400 :=
      max_eq_right (by rw [hconv]; omega)
    have hne : ¬ (Int.fdiv (old_exp - now) 86400 = 0) := by rw [hconv]; omega
    simp [rotate_api_key, hfind, hsome, create_api_key, hpos, hmax, hne]
  · intro old_exp hsome hsmall
    have hconv := @Int.fdiv_eq_ediv (old_exp - now) 86400 (by omega)
    have hnpos : ¬ (0 < Int.fdiv (old_exp - now) 86400) := by rw [hconv]; omega
    simp [rotate_api_key, hfind, hsome, create_api_key, hnpos]

/-- C7 witness: an old record expiring at 200000 (now 0) rotates into one
expiring at 172800 = 2·86400, the floored remaining whole-day count. -/
theorem C7_rotate_expiry_amended_witness :
    ((rotate_api_key ⟨[⟨1, "h1", ["s"], ["p"], some 200000⟩], 2⟩ 1 none none
        none 0 "h2" "pk2").2.1).map APIKeyRecord.expires_at =
      some (some 172800) := by
  have h := (C7_rotate_expiry_amended ⟨[⟨1, "h1", ["s"], ["p"], some 200000⟩], 2⟩
    1 0 "h2" "pk2" ⟨1, "h1", ["s"], ["p"], some 200000⟩ (by rfl)).2.1 200000
    (by rfl) (by decide)
  exact h

end Airlock
